import Mathlib

/-!
Shallow embedding of the Pelican site configuration `pelicanconf.py` of the
mooseberrytech.github.io repository, together with theorems checking the
natural-language specification against it.

The configuration file is pure data: module-level assignments of strings,
tuples and one nested mapping.  We embed it as a Lean structure `SiteConf`
whose fields keep the source's setting names, and a single literal instance
`pelicanconf` translated line by line from the source.  Tuples of the Python
source become Lean lists (preserving order), `None` becomes `Option.none`,
and the nested author-metadata dict becomes an association list keyed by the
author key.  Literal `\x7b` / `\x7d` braces inside template strings are
written with hexadecimal escapes.
-/

/-- One entry of the `AUTHOR_META` mapping: the nested record
`\x7bname, image, linkedin, bio\x7d` from `pelicanconf.py`. -/
structure AuthorRecord where
  name : String
  image : String
  linkedin : String
  bio : String
deriving DecidableEq, Repr

/-- The site configuration record: one field per module-level assignment of
`pelicanconf.py`, with the source's names. -/
structure SiteConf where
  AUTHOR : String
  SITENAME : String
  SITEURL : String
  THEME : String
  PATH : String
  TIMEZONE : String
  DEFAULT_LANG : String
  FEED_ALL_ATOM : Option String
  CATEGORY_FEED_ATOM : Option String
  TRANSLATION_FEED_ATOM : Option String
  AUTHOR_FEED_ATOM : Option String
  AUTHOR_FEED_RSS : Option String
  MENUITEMS : List (String × String)
  LINKS : List (String × String)
  SOCIAL : List (String × String)
  DEFAULT_PAGINATION : Nat
  PAGINATION_PATTERNS : List (Nat × String × String)
  ARTICLE_URL : String
  ARTICLE_SAVE_AS : String
  PAGE_URL : String
  PAGE_SAVE_AS : String
  YEAR_ARCHIVE_SAVE_AS : String
  MONTH_ARCHIVE_SAVE_AS : String
  CATEGORY_URL : String
  CATEGORY_SAVE_AS : String
  CATEGORIES_SAVE_AS : String
  TAG_URL : String
  TAG_SAVE_AS : String
  TAGS_SAVE_AS : String
  AUTHOR_URL : String
  AUTHOR_SAVE_AS : String
  AUTHORS_SAVE_AS : String
  AUTHOR_META : List (String × AuthorRecord)
  HOME_COVER : String
deriving DecidableEq

/-- The configuration record of `pelicanconf.py`, translated assignment by
assignment from the source file. -/
def pelicanconf : SiteConf where
  AUTHOR := "Adriana Vasiu"
  SITENAME := ""
  SITEURL := ""
  THEME := "themes/attila"
  PATH := "content"
  TIMEZONE := "Europe/London"
  DEFAULT_LANG := "en"
  FEED_ALL_ATOM := none
  CATEGORY_FEED_ATOM := none
  TRANSLATION_FEED_ATOM := none
  AUTHOR_FEED_ATOM := none
  AUTHOR_FEED_RSS := none
  MENUITEMS :=
    [("Home", "/"),
     ("Author", "/author/adriana-vasiu/"),
     ("Testing", "/category/testing/"),
     ("Development", "/category/development/"),
     ("Instrumentation", "/category/instrumentation/"),
     ("Automation", "/category/automation/"),
     ("Ways of Working", "/category/ways-of-working/")]
  LINKS := []
  SOCIAL :=
    [("You can add links in your config file", "#"),
     ("Another social link", "#")]
  DEFAULT_PAGINATION := 3
  PAGINATION_PATTERNS :=
    [(1, "\x7bbase_name\x7d/", "\x7bbase_name\x7d/index.html"),
     (2, "\x7bbase_name\x7d/page/\x7bnumber\x7d/",
         "\x7bbase_name\x7d/page/\x7bnumber\x7d/index.html")]
  ARTICLE_URL := "\x7bdate:%Y\x7d/\x7bdate:%m\x7d/\x7bslug\x7d.html"
  ARTICLE_SAVE_AS := "\x7bdate:%Y\x7d/\x7bdate:%m\x7d/\x7bslug\x7d.html"
  PAGE_URL := "pages/\x7bslug\x7d/"
  PAGE_SAVE_AS := "pages/\x7bslug\x7d/index.html"
  YEAR_ARCHIVE_SAVE_AS := "\x7bdate:%Y\x7d/index.html"
  MONTH_ARCHIVE_SAVE_AS := "\x7bdate:%Y\x7d/\x7bdate:%m\x7d/index.html"
  CATEGORY_URL := "category/\x7bslug\x7d"
  CATEGORY_SAVE_AS := "category/\x7bslug\x7d/index.html"
  CATEGORIES_SAVE_AS := "catgegories.html"
  TAG_URL := "tag/\x7bslug\x7d"
  TAG_SAVE_AS := "tag/\x7bslug\x7d/index.html"
  TAGS_SAVE_AS := "tags.html"
  AUTHOR_URL := "author/\x7bslug\x7d"
  AUTHOR_SAVE_AS := "author/\x7bslug\x7d/index.html"
  AUTHORS_SAVE_AS := "authors.html"
  AUTHOR_META :=
    [("adriana vasiu",
      { name := "Adriana Vasiu",
        image := "images/mooseberry_tech-512x512-NO-TEXT.png",
        linkedin := "adrianavasiu",
        bio := "I currently work as a consultant on software development." })]
  HOME_COVER := "images/mooseberry_tech-BACKGOURND.jpg"

/-- State of the placeholder scanner: outside any braces, inside a
placeholder name, or inside a format specification (after the colon of a
placeholder such as `\x7bdate:%Y\x7d`). -/
inductive PhState where
  | outside : PhState
  | inName : List Char → PhState
  | inSpec : PhState

/-- Scanner collecting the placeholder names of a template string: an
opening brace starts a name, which ends at a closing brace or at a colon
(the format specification after the colon is skipped). -/
def phAux : PhState → List Char → List String
  | _, [] => []
  | .outside, c :: cs =>
      if c = '\x7b' then phAux (.inName []) cs else phAux .outside cs
  | .inName acc, c :: cs =>
      if c = '\x7d' then String.mk acc.reverse :: phAux .outside cs
      else if c = ':' then String.mk acc.reverse :: phAux .inSpec cs
      else phAux (.inName (c :: acc)) cs
  | .inSpec, c :: cs =>
      if c = '\x7d' then phAux .outside cs else phAux .inSpec cs

/-- The list of placeholder tokens of a URL or save-path template, in
order of appearance: `\x7bdate:%Y\x7d/\x7bslug\x7d.html` yields
["date", "slug"]. -/
def placeholders (s : String) : List String :=
  phAux .outside s.data

/-- The fixed set of placeholder tokens the external engine defines for the
content types configured here. -/
def engineTokens : List String :=
  ["date", "slug", "number", "base_name"]

/-- All URL and save-path templates of a configuration: the article, page,
category, tag, author, year-archive and month-archive templates, and the
url and save-path templates of every pagination pattern. -/
def urlTemplates (c : SiteConf) : List String :=
  [c.ARTICLE_URL, c.ARTICLE_SAVE_AS, c.PAGE_URL, c.PAGE_SAVE_AS,
   c.CATEGORY_URL, c.CATEGORY_SAVE_AS, c.TAG_URL, c.TAG_SAVE_AS,
   c.AUTHOR_URL, c.AUTHOR_SAVE_AS,
   c.YEAR_ARCHIVE_SAVE_AS, c.MONTH_ARCHIVE_SAVE_AS]
    ++ c.PAGINATION_PATTERNS.map (fun p => p.2.1)
    ++ c.PAGINATION_PATTERNS.map (fun p => p.2.2)

/-- Strict ascending order of a list of naturals, checked pairwise. -/
def strictlyAscending : List Nat → Bool
  | [] => true
  | [_] => true
  | a :: b :: rest => decide (a < b) && strictlyAscending (b :: rest)

/-- Lowercase normalization of a display name into an author key: every
character is lowercased and every space is replaced by the key's separator
character. -/
def normKey (sep : Char) (s : String) : String :=
  String.mk (s.data.map (fun c => if c = ' ' then sep else c.toLower))

/-- Whether the pattern is a prefix of the character list. -/
def beginsWith : List Char → List Char → Bool
  | [], _ => true
  | _ :: _, [] => false
  | p :: ps, c :: cs => p == c && beginsWith ps cs

/-- Whether the pattern occurs as a contiguous substring of the list. -/
def hasSub (pat : List Char) : List Char → Bool
  | [] => beginsWith pat []
  | c :: cs => beginsWith pat (c :: cs) || hasSub pat (cs)

/-- Whether a string contains a URL scheme separator "://", i.e. whether it
is an absolute URL with scheme and host rather than a relative fragment. -/
def hasScheme (s : String) : Bool :=
  hasSub ("://".data) s.data

/-- A loadable setting value: the shapes of values occurring in
`pelicanconf.py` (string, optional string for feed settings, integer,
list of string pairs, list of pagination patterns, author-metadata map). -/
inductive Value where
  | str : String → Value
  | ostr : Option String → Value
  | nat : Nat → Value
  | pairs : List (String × String) → Value
  | pats : List (Nat × String × String) → Value
  | amap : List (String × AuthorRecord) → Value
deriving DecidableEq

/-- Modelled from the spec: the external engine's persistence of the record
"as a single source file using the host language's native assignment syntax
(name = literal value)"; serialization itself is not code of this
repository.  Serialize the record to the ordered list of
(setting name, value) assignments. -/
def serialize (c : SiteConf) : List (String × Value) :=
  [("AUTHOR", .str c.AUTHOR),
   ("SITENAME", .str c.SITENAME),
   ("SITEURL", .str c.SITEURL),
   ("THEME", .str c.THEME),
   ("PATH", .str c.PATH),
   ("TIMEZONE", .str c.TIMEZONE),
   ("DEFAULT_LANG", .str c.DEFAULT_LANG),
   ("FEED_ALL_ATOM", .ostr c.FEED_ALL_ATOM),
   ("CATEGORY_FEED_ATOM", .ostr c.CATEGORY_FEED_ATOM),
   ("TRANSLATION_FEED_ATOM", .ostr c.TRANSLATION_FEED_ATOM),
   ("AUTHOR_FEED_ATOM", .ostr c.AUTHOR_FEED_ATOM),
   ("AUTHOR_FEED_RSS", .ostr c.AUTHOR_FEED_RSS),
   ("MENUITEMS", .pairs c.MENUITEMS),
   ("LINKS", .pairs c.LINKS),
   ("SOCIAL", .pairs c.SOCIAL),
   ("DEFAULT_PAGINATION", .nat c.DEFAULT_PAGINATION),
   ("PAGINATION_PATTERNS", .pats c.PAGINATION_PATTERNS),
   ("ARTICLE_URL", .str c.ARTICLE_URL),
   ("ARTICLE_SAVE_AS", .str c.ARTICLE_SAVE_AS),
   ("PAGE_URL", .str c.PAGE_URL),
   ("PAGE_SAVE_AS", .str c.PAGE_SAVE_AS),
   ("YEAR_ARCHIVE_SAVE_AS", .str c.YEAR_ARCHIVE_SAVE_AS),
   ("MONTH_ARCHIVE_SAVE_AS", .str c.MONTH_ARCHIVE_SAVE_AS),
   ("CATEGORY_URL", .str c.CATEGORY_URL),
   ("CATEGORY_SAVE_AS", .str c.CATEGORY_SAVE_AS),
   ("CATEGORIES_SAVE_AS", .str c.CATEGORIES_SAVE_AS),
   ("TAG_URL", .str c.TAG_URL),
   ("TAG_SAVE_AS", .str c.TAG_SAVE_AS),
   ("TAGS_SAVE_AS", .str c.TAGS_SAVE_AS),
   ("AUTHOR_URL", .str c.AUTHOR_URL),
   ("AUTHOR_SAVE_AS", .str c.AUTHOR_SAVE_AS),
   ("AUTHORS_SAVE_AS", .str c.AUTHORS_SAVE_AS),
   ("AUTHOR_META", .amap c.AUTHOR_META),
   ("HOME_COVER", .str c.HOME_COVER)]

/-- Look up a string-valued setting in an assignment list. -/
def getStr (l : List (String × Value)) (k : String) : Option String :=
  match l.lookup k with
  | some (.str s) => some s
  | _ => none

/-- Look up an optional-string-valued (feed) setting. -/
def getOStr (l : List (String × Value)) (k : String) : Option (Option String) :=
  match l.lookup k with
  | some (.ostr s) => some s
  | _ => none

/-- Look up an integer-valued setting. -/
def getNat (l : List (String × Value)) (k : String) : Option Nat :=
  match l.lookup k with
  | some (.nat n) => some n
  | _ => none

/-- Look up a setting holding a list of string pairs. -/
def getPairs (l : List (String × Value)) (k : String) :
    Option (List (String × String)) :=
  match l.lookup k with
  | some (.pairs p) => some p
  | _ => none

/-- Look up the pagination-patterns setting. -/
def getPats (l : List (String × Value)) (k : String) :
    Option (List (Nat × String × String)) :=
  match l.lookup k with
  | some (.pats p) => some p
  | _ => none

/-- Look up the author-metadata setting. -/
def getAmap (l : List (String × Value)) (k : String) :
    Option (List (String × AuthorRecord)) :=
  match l.lookup k with
  | some (.amap m) => some m
  | _ => none

/-- Modelled from the spec: loading the record reads each named setting by
fixed key; a missing or ill-shaped required field fails the whole load (the
engine aborts startup).  The loading code itself lives in the external
engine, not in this repository. -/
def load (l : List (String × Value)) : Option SiteConf :=
  match getStr l "AUTHOR" with
  | none => none
  | some author =>
  match getStr l "SITENAME" with
  | none => none
  | some sitename =>
  match getStr l "SITEURL" with
  | none => none
  | some siteurl =>
  match getStr l "THEME" with
  | none => none
  | some theme =>
  match getStr l "PATH" with
  | none => none
  | some path =>
  match getStr l "TIMEZONE" with
  | none => none
  | some timezone =>
  match getStr l "DEFAULT_LANG" with
  | none => none
  | some defaultLang =>
  match getOStr l "FEED_ALL_ATOM" with
  | none => none
  | some feedAllAtom =>
  match getOStr l "CATEGORY_FEED_ATOM" with
  | none => none
  | some categoryFeedAtom =>
  match getOStr l "TRANSLATION_FEED_ATOM" with
  | none => none
  | some translationFeedAtom =>
  match getOStr l "AUTHOR_FEED_ATOM" with
  | none => none
  | some authorFeedAtom =>
  match getOStr l "AUTHOR_FEED_RSS" with
  | none => none
  | some authorFeedRss =>
  match getPairs l "MENUITEMS" with
  | none => none
  | some menuitems =>
  match getPairs l "LINKS" with
  | none => none
  | some links =>
  match getPairs l "SOCIAL" with
  | none => none
  | some social =>
  match getNat l "DEFAULT_PAGINATION" with
  | none => none
  | some defaultPagination =>
  match getPats l "PAGINATION_PATTERNS" with
  | none => none
  | some paginationPatterns =>
  match getStr l "ARTICLE_URL" with
  | none => none
  | some articleUrl =>
  match getStr l "ARTICLE_SAVE_AS" with
  | none => none
  | some articleSaveAs =>
  match getStr l "PAGE_URL" with
  | none => none
  | some pageUrl =>
  match getStr l "PAGE_SAVE_AS" with
  | none => none
  | some pageSaveAs =>
  match getStr l "YEAR_ARCHIVE_SAVE_AS" with
  | none => none
  | some yearArchiveSaveAs =>
  match getStr l "MONTH_ARCHIVE_SAVE_AS" with
  | none => none
  | some monthArchiveSaveAs =>
  match getStr l "CATEGORY_URL" with
  | none => none
  | some categoryUrl =>
  match getStr l "CATEGORY_SAVE_AS" with
  | none => none
  | some categorySaveAs =>
  match getStr l "CATEGORIES_SAVE_AS" with
  | none => none
  | some categoriesSaveAs =>
  match getStr l "TAG_URL" with
  | none => none
  | some tagUrl =>
  match getStr l "TAG_SAVE_AS" with
  | none => none
  | some tagSaveAs =>
  match getStr l "TAGS_SAVE_AS" with
  | none => none
  | some tagsSaveAs =>
  match getStr l "AUTHOR_URL" with
  | none => none
  | some authorUrl =>
  match getStr l "AUTHOR_SAVE_AS" with
  | none => none
  | some authorSaveAs =>
  match getStr l "AUTHORS_SAVE_AS" with
  | none => none
  | some authorsSaveAs =>
  match getAmap l "AUTHOR_META" with
  | none => none
  | some authorMeta =>
  match getStr l "HOME_COVER" with
  | none => none
  | some homeCover =>
  some (SiteConf.mk author sitename siteurl theme path timezone defaultLang
    feedAllAtom categoryFeedAtom translationFeedAtom authorFeedAtom
    authorFeedRss menuitems links social defaultPagination
    paginationPatterns articleUrl articleSaveAs pageUrl pageSaveAs
    yearArchiveSaveAs monthArchiveSaveAs categoryUrl categorySaveAs
    categoriesSaveAs tagUrl tagSaveAs tagsSaveAs authorUrl authorSaveAs
    authorsSaveAs authorMeta homeCover)

/-- Theorem for C1: loading the configuration record yields author
"Adriana Vasiu", default pagination 3, exactly 7 menu items with
("Home", "/") first, and an author-metadata mapping with the single key
"adriana vasiu" whose display name is "Adriana Vasiu". -/
theorem c1_concrete_scenario :
    pelicanconf.AUTHOR = "Adriana Vasiu" ∧
    pelicanconf.DEFAULT_PAGINATION = 3 ∧
    pelicanconf.MENUITEMS.length = 7 ∧
    pelicanconf.MENUITEMS.head? = some ("Home", "/") ∧
    pelicanconf.AUTHOR_META.map (fun kv => (kv.1, kv.2.name)) =
      [("adriana vasiu", "Adriana Vasiu")] := by
  refine ⟨rfl, rfl, rfl, rfl, rfl⟩

/-- Theorem for C2: the default page size is a positive integer, every
pagination pattern's page-number threshold is a positive integer, and the
patterns are listed in strictly ascending threshold order. -/
theorem c2_pagination_invariant :
    0 < pelicanconf.DEFAULT_PAGINATION ∧
    (pelicanconf.PAGINATION_PATTERNS.all fun p => decide (0 < p.1)) = true ∧
    strictlyAscending (pelicanconf.PAGINATION_PATTERNS.map Prod.fst) = true := by
  decide

/-- Theorem for C3: every key of the author-metadata mapping is the
lowercase form of its entry's display name with whitespace converted to the
key's separator convention (the separator of the key in the source is the
space character itself), hence the lowercase normalized form of the display
name. -/
theorem c3_author_key_normalization :
    (pelicanconf.AUTHOR_META.all fun kv =>
      kv.1 == normKey ' ' kv.2.name) = true := by
  decide

/-- Theorem for C4: every placeholder token of every URL or save-path
template of the configuration (article, page, category, tag, author,
year-archive, month-archive, pagination patterns) is one of the engine's
tokens date, slug, number, base_name. -/
theorem c4_placeholder_validity :
    ((urlTemplates pelicanconf).all fun t =>
      (placeholders t).all fun tok => engineTokens.contains tok) = true := by
  decide

/-- Theorem for C5: the author-name field of the loaded configuration
record is a non-empty string. -/
theorem c5_author_nonempty :
    pelicanconf.AUTHOR ≠ "" := by
  decide

/-- Theorem for C6: every feed-generation setting of the configuration is
the None sentinel, which the external engine reads as the feed feature
being disabled. -/
theorem c6_feeds_disabled :
    pelicanconf.FEED_ALL_ATOM = none ∧
    pelicanconf.CATEGORY_FEED_ATOM = none ∧
    pelicanconf.TRANSLATION_FEED_ATOM = none ∧
    pelicanconf.AUTHOR_FEED_ATOM = none ∧
    pelicanconf.AUTHOR_FEED_RSS = none :=
  ⟨rfl, rfl, rfl, rfl, rfl⟩

/-- Theorem for C7: loading is deterministic (two loads of the same
serialized source agree, in particular on the menu-item order) and the
serialize/load cycle is a round trip returning a field-for-field identical
record. -/
theorem c7_load_roundtrip_deterministic :
    (∀ c : SiteConf, load (serialize c) = some c) ∧
    (∀ (l : List (String × Value)) (c₁ c₂ : SiteConf),
      load l = some c₁ → load l = some c₂ → c₁.MENUITEMS = c₂.MENUITEMS) := by
  constructor
  · intro c
    rfl
  · intro l c₁ c₂ h₁ h₂
    rw [h₁] at h₂
    cases h₂
    rfl

/-- Witness for C7 at the concrete configuration: serializing
`pelicanconf` and loading the result yields `pelicanconf` back, with
identical menu items across the two reads. -/
theorem c7_load_roundtrip_deterministic_witness :
    load (serialize pelicanconf) = some pelicanconf ∧
    pelicanconf.MENUITEMS = pelicanconf.MENUITEMS :=
  ⟨c7_load_roundtrip_deterministic.1 pelicanconf,
   c7_load_roundtrip_deterministic.2 (serialize pelicanconf)
     pelicanconf pelicanconf
     (c7_load_roundtrip_deterministic.1 pelicanconf)
     (c7_load_roundtrip_deterministic.1 pelicanconf)⟩

/-- Theorem for C8: the menu items are exactly the seven (label, path)
pairs of the source in their listed (display) order, and no path contains a
URL scheme separator, i.e. every path is a relative URL fragment. -/
theorem c8_menuitems_relative :
    pelicanconf.MENUITEMS =
      [("Home", "/"),
       ("Author", "/author/adriana-vasiu/"),
       ("Testing", "/category/testing/"),
       ("Development", "/category/development/"),
       ("Instrumentation", "/category/instrumentation/"),
       ("Automation", "/category/automation/"),
       ("Ways of Working", "/category/ways-of-working/")] ∧
    (pelicanconf.MENUITEMS.all fun it => !hasScheme it.2) = true := by
  decide

/-- Theorem for C9: the article URL template and the article save-path
template are the identical string, so every article is saved at exactly the
path it is served from. -/
theorem c9_article_url_eq_save_as :
    pelicanconf.ARTICLE_URL = pelicanconf.ARTICLE_SAVE_AS ∧
    pelicanconf.ARTICLE_URL =
      "\x7bdate:%Y\x7d/\x7bdate:%m\x7d/\x7bslug\x7d.html" :=
  ⟨rfl, rfl⟩

/-- Theorem for C10: the three overview save paths contain no placeholder
tokens at all, and the all-categories save path is the literal misspelled
string "catgegories.html". -/
theorem c10_overview_save_paths :
    placeholders pelicanconf.CATEGORIES_SAVE_AS = [] ∧
    placeholders pelicanconf.TAGS_SAVE_AS = [] ∧
    placeholders pelicanconf.AUTHORS_SAVE_AS = [] ∧
    pelicanconf.CATEGORIES_SAVE_AS = "catgegories.html" := by
  decide
